import Mathlib

/-!
Shallow embedding of three source files of the azure-iot-sdk-node
provisioning packages, and proofs of the specified properties.

Embedded from source:
* `common/core/src/promise_utils.ts` — `doubleValueCallbackToPromise`
  modelled by the settled state of the promise it builds.
* `provisioning/service/src/provisioningserviceclient.ts` — the shared
  `_delete` helper and its three public entry points.
* `provisioning/device/src/x509_registration.ts` — `X509Registration._register`
  modelled as the trace of observable actions it performs.

Modelled from the spec (the file `polling_state_machine.ts` is not part of
the sources available here, only its caller is): the registration polling
state machine of spec section 4.1, as a step function over explicit states.
-/

/- ===================== promise_utils.ts ===================== -/

/-- A JavaScript value as far as `instanceof Error` can distinguish it:
either an `Error` instance or a plain non-`Error` value.  Payloads are
abstracted to `Nat`. -/
inductive JsValue
  | errObj (e : Nat)
  | plain (v : Nat)
  deriving DecidableEq, Repr

/-- The test `x instanceof Error` on a possibly-`undefined` argument
(`none` models `undefined`, which is not an `Error`). -/
def instanceOfError : Option JsValue → Bool
  | some (JsValue.errObj _) => true
  | _ => false

/-- A settlement of a JavaScript promise: `resolvedWith` a value or
`rejectedWith` a reason. -/
inductive PromiseSettled (α : Type)
  | resolvedWith (v : α)
  | rejectedWith (r : JsValue)

/-- JavaScript promise settling discipline: the first call to
`resolve`/`reject` wins, every later call is ignored. -/
def settleFirst {α : Type} (st : Option (PromiseSettled α)) (s : PromiseSettled α) :
    Option (PromiseSettled α) :=
  match st with
  | none => some s
  | some st0 => some st0

/-- The sequence of `resolve`/`reject` calls the executor callback of
`doubleValueCallbackToPromise` performs when invoked with `(result1, result2)`
and no `userCallback` was supplied: `reject(result1)` when
`result1 instanceof Error`, then `reject(result2)` when
`result2 instanceof Error`, then `resolve(packResults(result1, result2))`
unconditionally (the source has no early return after the rejects). -/
def doubleValueSettleSteps {α : Type} (packResults : Option JsValue → Option JsValue → α)
    (result1 result2 : Option JsValue) : List (PromiseSettled α) :=
  (match result1 with
   | some (JsValue.errObj e) => [PromiseSettled.rejectedWith (JsValue.errObj e)]
   | _ => []) ++
  (match result2 with
   | some (JsValue.errObj e) => [PromiseSettled.rejectedWith (JsValue.errObj e)]
   | _ => []) ++
  [PromiseSettled.resolvedWith (packResults result1 result2)]

/-- The settled state of the promise returned by
`doubleValueCallbackToPromise` (no `userCallback`) after the inner callback
fires once with `(result1, result2)`. -/
def doubleValueCallbackToPromiseSettled {α : Type}
    (packResults : Option JsValue → Option JsValue → α)
    (result1 result2 : Option JsValue) : Option (PromiseSettled α) :=
  (doubleValueSettleSteps packResults result1 result2).foldl settleFirst none

/- ===================== x509_registration.ts ===================== -/

/-- Result of `getCertificate` on the security client: an error or a
certificate (abstracted to `Nat`). -/
inductive X509CertResult
  | certError (e : Nat)
  | certOk (cert : Nat)
  deriving DecidableEq, Repr

/-- The `DeviceRegistrationResult` delivered by the polling state machine;
only its `registrationState` field is read by `_register`. -/
structure DeviceRegistrationResult where
  registrationState : Nat
  deriving DecidableEq, Repr

/-- The single outcome the polling state machine delivers to the callback
passed to its `register` method.  The four constructors cover the paths the
spec names: successful assignment, terminal failure status, transport
error, and cancellation — `_register` itself only distinguishes error from
success. -/
inductive PollingRegisterOutcome
  | succeeded (result : DeviceRegistrationResult)
  | failedTerminal (e : Nat)
  | failedTransport (e : Nat)
  | cancelledErr (e : Nat)
  deriving DecidableEq, Repr

/-- Environment of one `X509Registration._register` run: what each callback
it hands out is eventually invoked with.  `disconnectErr` is the argument of
the `disconnect` callback; the source only logs it. -/
structure X509Env where
  certResult : X509CertResult
  regOutcome : PollingRegisterOutcome
  disconnectErr : Option Nat
  deriving DecidableEq, Repr

/-- Argument of the caller-supplied completion callback. -/
inductive CallbackPayload
  | failure (e : Nat)
  | success (registrationState : Nat)
  deriving DecidableEq, Repr

/-- Observable actions of `X509Registration._register`. -/
inductive X509Action
  | callGetCert
  | callSetAuthentication (cert : Nat)
  | callPollingRegister
  | callDisconnect
  | invokeCallback (p : CallbackPayload)
  deriving DecidableEq, Repr

/-- Trace of observable actions of `X509Registration._register` in the given
environment, straight from the source: `getCertificate`; on error invoke the
callback with the error; otherwise `setAuthentication(cert)`, then
`pollingStateMachine.register`, and in its callback first
`pollingStateMachine.disconnect`, and only inside the disconnect callback
invoke the caller's callback (with `err`, or with
`result.registrationState`). -/
def registerTrace (env : X509Env) : List X509Action :=
  X509Action.callGetCert ::
  match env.certResult with
  | X509CertResult.certError e => [X509Action.invokeCallback (CallbackPayload.failure e)]
  | X509CertResult.certOk cert =>
    X509Action.callSetAuthentication cert ::
    X509Action.callPollingRegister ::
    X509Action.callDisconnect ::
    [match env.regOutcome with
     | PollingRegisterOutcome.succeeded r =>
        X509Action.invokeCallback (CallbackPayload.success r.registrationState)
     | PollingRegisterOutcome.failedTerminal e =>
        X509Action.invokeCallback (CallbackPayload.failure e)
     | PollingRegisterOutcome.failedTransport e =>
        X509Action.invokeCallback (CallbackPayload.failure e)
     | PollingRegisterOutcome.cancelledErr e =>
        X509Action.invokeCallback (CallbackPayload.failure e)]

/-- Recognises the completion-callback action. -/
def isCallbackAction : X509Action → Bool
  | X509Action.invokeCallback _ => true
  | _ => false

/-- Recognises the transport `disconnect` call. -/
def isDisconnectAction : X509Action → Bool
  | X509Action.callDisconnect => true
  | _ => false

/-- Recognises the `setAuthentication` call on the transport. -/
def isSetAuthAction : X509Action → Bool
  | X509Action.callSetAuthentication _ => true
  | _ => false

/-- Recognises the `register` call on the polling state machine. -/
def isPollRegisterAction : X509Action → Bool
  | X509Action.callPollingRegister => true
  | _ => false

/-- Index of the first action satisfying `p` (length of the list when none
does). -/
def firstIdxWhere (p : X509Action → Bool) : List X509Action → Nat
  | [] => 0
  | a :: tl => if p a then 0 else firstIdxWhere p tl + 1

/-- Sample environment: certificate acquired, device assigned. -/
def envAssignedSample : X509Env :=
  { certResult := X509CertResult.certOk 0,
    regOutcome := PollingRegisterOutcome.succeeded { registrationState := 0 },
    disconnectErr := none }

/- ===================== provisioningserviceclient.ts ===================== -/

/-- The three endpoint path components the delete methods pass to `_delete`
(`/enrollments/`, `/enrollmentGroups/`, `/registrations/`). -/
inductive DeleteEndpoint
  | enrollments
  | enrollmentGroups
  | registrations
  deriving DecidableEq, Repr

/-- An enrollment-ish record passed as first argument of a delete method.
String-valued fields use `none` for `undefined`; the empty string is the
other falsy string value. -/
structure EnrollmentRecord where
  registrationId : Option String
  enrollmentGroupId : Option String
  etag : Option String
  deriving DecidableEq, Repr

/-- First argument of `_delete`: a string id or a record object (an object
is always truthy in JavaScript). -/
inductive DeleteFirst
  | idStr (s : String)
  | record (r : EnrollmentRecord)
  deriving DecidableEq, Repr

/-- Second argument of `_delete` when present: an etag string, a callback
function (identified by a `Nat` tag), or a truthy value of some other
type. -/
inductive DeleteSecond
  | etagStr (s : String)
  | func (cbId : Nat)
  | otherTruthy
  deriving DecidableEq, Repr

/-- Third argument of `_delete` when present: a callback function or a
truthy non-function value. -/
inductive DeleteThird
  | func (cbId : Nat)
  | notFunc
  deriving DecidableEq, Repr

/-- Exceptions `_delete` can throw. -/
inductive DeleteError
  | referenceError
  | argumentError
  deriving DecidableEq, Repr

/-- Truthiness of an optional string (`undefined` and `''` are falsy). -/
def strTruthy : Option String → Bool
  | none => false
  | some s => !(s = "")

/-- The DELETE request `_delete` ends up issuing via
`executeApiCall('DELETE', path, httpHeaders, null, ...)`, together with the
callback it decided to keep.  `deleteId` is the id spliced into the path,
`ifMatch` the `If-Match` header value, `suppliedCallback` the callback that
the response will be forwarded to (or `none`). -/
structure DeleteResult where
  endpoint : DeleteEndpoint
  deleteId : String
  ifMatch : Option String
  suppliedCallback : Option Nat
  deriving DecidableEq, Repr

/-- `ProvisioningServiceClient._delete`, embedded from the source.  The
string-first-argument branch: a falsy second argument (missing, or the empty
string — `if (!etagOrCallback)`) sets both `ifMatch` and `suppliedCallback`
to `undefined` without ever looking at the third argument; a non-empty etag
string keeps the third argument as callback when it is a function, throws
`ArgumentError` when it is present but not a function; a function second
argument becomes the callback; any other truthy second argument throws.
The record branch reads the id field selected by the endpoint (throwing
`ArgumentError` when it is falsy), accepts the second argument only as a
callback (falsy second means no callback, truthy non-function throws), and
takes `If-Match` from the record's truthy `etag`.  In every non-throwing
case the DELETE request is issued. -/
def provisioningServiceClientDelete (endpoint : DeleteEndpoint) (first : DeleteFirst)
    (second : Option DeleteSecond) (third : Option DeleteThird) :
    Except DeleteError DeleteResult :=
  match first with
  | DeleteFirst.idStr s =>
    if s = "" then Except.error DeleteError.referenceError
    else
      match second with
      | none =>
        Except.ok { endpoint := endpoint, deleteId := s, ifMatch := none,
                    suppliedCallback := none }
      | some (DeleteSecond.etagStr t) =>
        if t = "" then
          Except.ok { endpoint := endpoint, deleteId := s, ifMatch := none,
                      suppliedCallback := none }
        else
          match third with
          | none =>
            Except.ok { endpoint := endpoint, deleteId := s, ifMatch := some t,
                        suppliedCallback := none }
          | some (DeleteThird.func c) =>
            Except.ok { endpoint := endpoint, deleteId := s, ifMatch := some t,
                        suppliedCallback := some c }
          | some DeleteThird.notFunc => Except.error DeleteError.argumentError
      | some (DeleteSecond.func c) =>
        Except.ok { endpoint := endpoint, deleteId := s, ifMatch := none,
                    suppliedCallback := some c }
      | some DeleteSecond.otherTruthy => Except.error DeleteError.argumentError
  | DeleteFirst.record r =>
    let idOpt : Option String :=
      match endpoint with
      | DeleteEndpoint.enrollments => r.registrationId
      | DeleteEndpoint.enrollmentGroups => r.enrollmentGroupId
      | DeleteEndpoint.registrations => r.registrationId
    match idOpt with
    | none => Except.error DeleteError.argumentError
    | some i =>
      if i = "" then Except.error DeleteError.argumentError
      else
        match second with
        | none =>
          Except.ok { endpoint := endpoint, deleteId := i,
                      ifMatch := if strTruthy r.etag then r.etag else none,
                      suppliedCallback := none }
        | some (DeleteSecond.func c) =>
          Except.ok { endpoint := endpoint, deleteId := i,
                      ifMatch := if strTruthy r.etag then r.etag else none,
                      suppliedCallback := some c }
        | some (DeleteSecond.etagStr t) =>
          if t = "" then
            Except.ok { endpoint := endpoint, deleteId := i,
                        ifMatch := if strTruthy r.etag then r.etag else none,
                        suppliedCallback := none }
          else Except.error DeleteError.argumentError
        | some DeleteSecond.otherTruthy => Except.error DeleteError.argumentError

/-- `deleteIndividualEnrollment`, a direct delegation to `_delete` with the
`/enrollments/` path component. -/
def deleteIndividualEnrollment (first : DeleteFirst) (second : Option DeleteSecond)
    (third : Option DeleteThird) : Except DeleteError DeleteResult :=
  provisioningServiceClientDelete DeleteEndpoint.enrollments first second third

/-- `deleteEnrollmentGroup`, a direct delegation to `_delete` with the
`/enrollmentGroups/` path component. -/
def deleteEnrollmentGroup (first : DeleteFirst) (second : Option DeleteSecond)
    (third : Option DeleteThird) : Except DeleteError DeleteResult :=
  provisioningServiceClientDelete DeleteEndpoint.enrollmentGroups first second third

/-- `deleteDeviceRegistrationState`, a direct delegation to `_delete` with
the `/registrations/` path component. -/
def deleteDeviceRegistrationState (first : DeleteFirst) (second : Option DeleteSecond)
    (third : Option DeleteThird) : Except DeleteError DeleteResult :=
  provisioningServiceClientDelete DeleteEndpoint.registrations first second third

/-- The invocations of the kept callback once the DELETE response (with
optional error) arrives: `if (suppliedCallback) { if (err) cb(err) else
cb(null) }` — an empty list when no callback was kept. -/
def deleteCallbackInvocations (r : DeleteResult) (apiErr : Option Nat) :
    List (Nat × Option Nat) :=
  match r.suppliedCallback with
  | none => []
  | some c => [(c, apiErr)]

/- ===================== polling state machine (spec 4.1) ===================== -/

/-- Modelled from the spec: the provisioning status carried by a service
response — `assigned`, the non-terminal `assigning`, or any terminal
failure status (abstracted by a code). -/
inductive RegistrationStatus
  | assigned
  | assigning
  | terminalFailure (code : Nat)
  deriving DecidableEq, Repr

/-- Whether a status is terminal (everything except `assigning`). -/
def RegistrationStatus.isTerminal : RegistrationStatus → Bool
  | RegistrationStatus.assigning => false
  | _ => true

/-- Modelled from the spec: the phase of a registration attempt.
`waitingResponse` covers AwaitingInitialResponse and a poll request in
flight; `waitingTimer` is Polling with the inter-poll timer pending. -/
inductive PollPhase
  | waitingResponse
  | waitingTimer
  | terminal
  | cancelled
  deriving DecidableEq, Repr

/-- Modelled from the spec: the outcome delivered to the completion
callback. -/
inductive PollOutcome
  | assignedOk (operationId : Nat)
  | failedStatus (code : Nat)
  | transportFailure (e : Nat)
  | cancelError
  deriving DecidableEq, Repr

/-- Modelled from the spec: the observable state of one registration
attempt.  `pendingTimers` counts scheduled-but-unfired poll timers (the
spec asserts it never exceeds one), `inFlight` flags an outstanding network
request, `requestCount` counts network requests issued, `callbackCount`
counts completion-callback invocations, `nextDelay` is the delay in seconds
of the pending timer, `opId` the operation id most recently returned by the
service. -/
structure PollState where
  phase : PollPhase
  pendingTimers : Nat
  inFlight : Bool
  nextDelay : Option Nat
  opId : Option Nat
  callbackCount : Nat
  requestCount : Nat
  outcome : Option PollOutcome
  deriving DecidableEq, Repr

/-- Modelled from the spec: external events driving the attempt — a service
response (status, operation id, optional retry-after hint in seconds), a
transport error, the firing of the pending poll timer, and a caller
`cancel`. -/
inductive PollEvent
  | svcResponse (status : RegistrationStatus) (operationId : Nat) (retryAfter : Option Nat)
  | transportError (e : Nat)
  | timerFired
  | cancel
  deriving DecidableEq, Repr

/-- Modelled from the spec: the fixed default inter-poll delay, in seconds,
used when the service supplies no retry-after hint (the spec fixes its
existence, not its value). -/
def defaultPollIntervalSeconds : Nat := 2

/-- Modelled from the spec (section 4.1): one step of the polling state
machine.  Terminal statuses and transport errors conclude the attempt and
invoke the callback; `assigning` schedules exactly one timer with the
retry-after hint (default when absent); a firing timer issues the next
status request; `cancel` from an active phase clears timer and request and
invokes the callback with a cancellation error.  Events arriving in a
concluded (or mismatched) state are ignored — an abandoned in-flight
request's late response does nothing and a second `cancel` is a no-op. -/
def pollStep (st : PollState) (ev : PollEvent) : PollState :=
  match st.phase, ev with
  | PollPhase.waitingResponse, PollEvent.svcResponse status oid ra =>
    match status with
    | RegistrationStatus.assigned =>
      { st with phase := PollPhase.terminal, inFlight := false,
                callbackCount := st.callbackCount + 1,
                opId := some oid,
                outcome := some (PollOutcome.assignedOk oid) }
    | RegistrationStatus.terminalFailure c =>
      { st with phase := PollPhase.terminal, inFlight := false,
                callbackCount := st.callbackCount + 1,
                opId := some oid,
                outcome := some (PollOutcome.failedStatus c) }
    | RegistrationStatus.assigning =>
      { st with phase := PollPhase.waitingTimer, inFlight := false,
                pendingTimers := st.pendingTimers + 1,
                nextDelay := some (ra.getD defaultPollIntervalSeconds),
                opId := some oid }
  | PollPhase.waitingResponse, PollEvent.transportError e =>
    { st with phase := PollPhase.terminal, inFlight := false,
              callbackCount := st.callbackCount + 1,
              outcome := some (PollOutcome.transportFailure e) }
  | PollPhase.waitingTimer, PollEvent.timerFired =>
    { st with phase := PollPhase.waitingResponse,
              pendingTimers := st.pendingTimers - 1,
              nextDelay := none, inFlight := true,
              requestCount := st.requestCount + 1 }
  | PollPhase.waitingResponse, PollEvent.cancel =>
    { st with phase := PollPhase.cancelled, inFlight := false,
              pendingTimers := 0, nextDelay := none,
              callbackCount := st.callbackCount + 1,
              outcome := some PollOutcome.cancelError }
  | PollPhase.waitingTimer, PollEvent.cancel =>
    { st with phase := PollPhase.cancelled, inFlight := false,
              pendingTimers := 0, nextDelay := none,
              callbackCount := st.callbackCount + 1,
              outcome := some PollOutcome.cancelError }
  | _, _ => st

/-- Modelled from the spec: state right after `register` is called — the
initial registration request is in flight, nothing else pending. -/
def startedPollState : PollState :=
  { phase := PollPhase.waitingResponse, pendingTimers := 0, inFlight := true,
    nextDelay := none, opId := none, callbackCount := 0, requestCount := 1,
    outcome := none }

/-- State of a registration attempt after processing a list of events. -/
def pollRun (evs : List PollEvent) : PollState :=
  evs.foldl pollStep startedPollState

/-- Structural invariant of reachable states: the request flag matches the
`waitingResponse` phase, exactly one timer is pending exactly in the
`waitingTimer` phase, and the callback has fired exactly once exactly in
the concluded phases. -/
def PollInv (s : PollState) : Prop :=
  (s.inFlight = true ↔ s.phase = PollPhase.waitingResponse) ∧
  (s.pendingTimers = if s.phase = PollPhase.waitingTimer then 1 else 0) ∧
  (s.callbackCount =
    if s.phase = PollPhase.terminal ∨ s.phase = PollPhase.cancelled then 1 else 0)

theorem pollInv_started : PollInv startedPollState := by
  refine ⟨?_, ?_, ?_⟩ <;> simp [startedPollState, PollInv]

theorem pollInv_step (s : PollState) (ev : PollEvent) (h : PollInv s) :
    PollInv (pollStep s ev) := by
  obtain ⟨ph, pt, inf, nd, oid0, cc, rc, oc⟩ := s
  obtain ⟨h1, h2, h3⟩ := h
  simp only [PollInv] at *
  cases ph <;> cases ev <;>
    (try (rename_i status oid ra; cases status)) <;>
    simp_all [pollStep]

theorem pollInv_foldl (evs : List PollEvent) (s : PollState) (h : PollInv s) :
    PollInv (evs.foldl pollStep s) := by
  induction evs generalizing s with
  | nil => exact h
  | cons e tl ih => exact ih (pollStep s e) (pollInv_step s e h)

theorem pollRun_inv (evs : List PollEvent) : PollInv (pollRun evs) :=
  pollInv_foldl evs startedPollState pollInv_started

/-- A concluded attempt absorbs every further event. -/
theorem pollStep_concluded (s : PollState) (ev : PollEvent)
    (h : s.phase = PollPhase.terminal ∨ s.phase = PollPhase.cancelled) :
    pollStep s ev = s := by
  rcases h with h | h <;> cases ev <;> simp [pollStep, h]

/-- A concluded attempt stays unchanged across any tail of events. -/
theorem pollFoldl_concluded (evs : List PollEvent) (s : PollState)
    (h : s.phase = PollPhase.terminal ∨ s.phase = PollPhase.cancelled) :
    evs.foldl pollStep s = s := by
  induction evs with
  | nil => rfl
  | cons e tl ih => rw [List.foldl_cons, pollStep_concluded s e h]; exact ih

/-- Cancelling any state twice is the same as cancelling it once. -/
theorem pollStep_cancel_idem (s : PollState) :
    pollStep (pollStep s PollEvent.cancel) PollEvent.cancel
      = pollStep s PollEvent.cancel := by
  cases hp : s.phase <;> simp [pollStep, hp]

/- ===================== claim theorems ===================== -/

/-- C1: for every run of `X509Registration._register` — `getCertificate`
failure, successful assignment, terminal failure, transport error, or
cancellation delivered by the polling state machine — the caller-supplied
completion callback is invoked exactly once. -/
theorem x509_register_callback_exactly_once (env : X509Env) :
    ((registerTrace env).filter isCallbackAction).length = 1 := by
  obtain ⟨cr, ro, de⟩ := env
  cases cr <;> cases ro <;>
    simp [registerTrace, isCallbackAction, List.filter]

/-- C2 counterexample: on a successful registration the source disconnects
the transport strictly before it invokes the completion callback, so the
claim that the callback fires first and the disconnect never precedes it is
false at this concrete input. -/
theorem x509_callback_before_disconnect_refuted :
    firstIdxWhere isDisconnectAction (registerTrace envAssignedSample)
        < firstIdxWhere isCallbackAction (registerTrace envAssignedSample) ∧
    ¬ firstIdxWhere isCallbackAction (registerTrace envAssignedSample)
        < firstIdxWhere isDisconnectAction (registerTrace envAssignedSample) ∧
    firstIdxWhere isCallbackAction (registerTrace envAssignedSample)
        < (registerTrace envAssignedSample).length := by decide

/-- C2 (amended): whenever the certificate is acquired, the transport
disconnect is initiated before the completion callback fires — the callback
runs inside the disconnect completion, never before it. -/
theorem x509_disconnect_precedes_callback (env : X509Env) (cert : Nat)
    (h : env.certResult = X509CertResult.certOk cert) :
    firstIdxWhere isDisconnectAction (registerTrace env)
        < firstIdxWhere isCallbackAction (registerTrace env) ∧
    firstIdxWhere isCallbackAction (registerTrace env)
        < (registerTrace env).length := by
  obtain ⟨cr, ro, de⟩ := env
  simp only at h
  subst h
  cases ro <;>
    simp [registerTrace, firstIdxWhere, isDisconnectAction, isCallbackAction]

theorem x509_disconnect_precedes_callback_witness :
    firstIdxWhere isDisconnectAction (registerTrace envAssignedSample)
        < firstIdxWhere isCallbackAction (registerTrace envAssignedSample) :=
  (x509_disconnect_precedes_callback envAssignedSample 0 rfl).1

/-- C3: cancelling a registration attempt is idempotent — cancelling twice
equals cancelling once, an active attempt reaches the cancellation outcome
with exactly one callback invocation, and a `cancel` after the attempt has
concluded changes nothing. -/
theorem poll_cancel_idempotent (evs : List PollEvent) :
    pollStep (pollStep (pollRun evs) PollEvent.cancel) PollEvent.cancel
      = pollStep (pollRun evs) PollEvent.cancel ∧
    ((pollRun evs).phase = PollPhase.waitingResponse ∨
        (pollRun evs).phase = PollPhase.waitingTimer →
      (pollStep (pollRun evs) PollEvent.cancel).callbackCount = 1 ∧
      (pollStep (pollRun evs) PollEvent.cancel).outcome
        = some PollOutcome.cancelError) ∧
    ((pollRun evs).phase = PollPhase.terminal ∨
        (pollRun evs).phase = PollPhase.cancelled →
      pollStep (pollRun evs) PollEvent.cancel = pollRun evs) := by
  refine ⟨pollStep_cancel_idem _, ?_, fun h => pollStep_concluded _ _ h⟩
  intro h
  have h3 := (pollRun_inv evs).2.2
  rcases h with h | h <;> simp [h] at h3 <;> simp [pollStep, h, h3]

theorem poll_cancel_idempotent_witness :
    pollStep (pollStep (pollRun []) PollEvent.cancel) PollEvent.cancel
      = pollStep (pollRun []) PollEvent.cancel ∧
    (pollStep (pollRun []) PollEvent.cancel).callbackCount = 1 := by
  have h := poll_cancel_idempotent []
  exact ⟨h.1, (h.2.1 (Or.inl rfl)).1⟩

/-- C4: a transport error while a request is outstanding concludes the
attempt immediately with that error as outcome, leaves no pending timer,
invokes the callback once, and no later event changes the state (no retry,
no further poll). -/
theorem poll_transport_error_no_retry (evs rest : List PollEvent) (e : Nat)
    (h : (pollRun evs).phase = PollPhase.waitingResponse) :
    (pollStep (pollRun evs) (PollEvent.transportError e)).phase
      = PollPhase.terminal ∧
    (pollStep (pollRun evs) (PollEvent.transportError e)).outcome
      = some (PollOutcome.transportFailure e) ∧
    (pollStep (pollRun evs) (PollEvent.transportError e)).pendingTimers = 0 ∧
    (pollStep (pollRun evs) (PollEvent.transportError e)).callbackCount = 1 ∧
    rest.foldl pollStep (pollStep (pollRun evs) (PollEvent.transportError e))
      = pollStep (pollRun evs) (PollEvent.transportError e) := by
  have h2 := (pollRun_inv evs).2.1
  have h3 := (pollRun_inv evs).2.2
  simp [h] at h2 h3
  exact ⟨by simp [pollStep, h], by simp [pollStep, h], by simp [pollStep, h, h2],
    by simp [pollStep, h, h3],
    pollFoldl_concluded rest _ (Or.inl (by simp [pollStep, h]))⟩

theorem poll_transport_error_no_retry_witness :
    (pollStep (pollRun []) (PollEvent.transportError 3)).phase
      = PollPhase.terminal ∧
    [PollEvent.timerFired].foldl pollStep
        (pollStep (pollRun []) (PollEvent.transportError 3))
      = pollStep (pollRun []) (PollEvent.transportError 3) := by
  have h := poll_transport_error_no_retry [] [PollEvent.timerFired] 3 rfl
  exact ⟨h.1, h.2.2.2.2⟩

/-- C5: the first service response carrying a terminal status concludes the
attempt at once — the callback fires, no timer is pending, and no later
event (hence no poll) changes the state. -/
theorem poll_terminal_status_first_response (evs rest : List PollEvent)
    (status : RegistrationStatus) (oid : Nat) (ra : Option Nat)
    (h : (pollRun evs).phase = PollPhase.waitingResponse)
    (ht : status.isTerminal = true) :
    (pollStep (pollRun evs) (PollEvent.svcResponse status oid ra)).phase
      = PollPhase.terminal ∧
    (pollStep (pollRun evs) (PollEvent.svcResponse status oid ra)).callbackCount
      = 1 ∧
    (pollStep (pollRun evs) (PollEvent.svcResponse status oid ra)).pendingTimers
      = 0 ∧
    rest.foldl pollStep (pollStep (pollRun evs) (PollEvent.svcResponse status oid ra))
      = pollStep (pollRun evs) (PollEvent.svcResponse status oid ra) := by
  have h2 := (pollRun_inv evs).2.1
  have h3 := (pollRun_inv evs).2.2
  simp [h] at h2 h3
  cases status with
  | assigning => simp [RegistrationStatus.isTerminal] at ht
  | assigned =>
    exact ⟨by simp [pollStep, h], by simp [pollStep, h, h3], by simp [pollStep, h, h2],
      pollFoldl_concluded rest _ (Or.inl (by simp [pollStep, h]))⟩
  | terminalFailure c =>
    exact ⟨by simp [pollStep, h], by simp [pollStep, h, h3], by simp [pollStep, h, h2],
      pollFoldl_concluded rest _ (Or.inl (by simp [pollStep, h]))⟩

theorem poll_terminal_status_first_response_witness :
    (pollStep (pollRun [])
        (PollEvent.svcResponse RegistrationStatus.assigned 9 none)).phase
      = PollPhase.terminal ∧
    [PollEvent.cancel].foldl pollStep
        (pollStep (pollRun []) (PollEvent.svcResponse RegistrationStatus.assigned 9 none))
      = pollStep (pollRun []) (PollEvent.svcResponse RegistrationStatus.assigned 9 none) := by
  have h := poll_terminal_status_first_response [] [PollEvent.cancel]
      RegistrationStatus.assigned 9 none rfl rfl
  exact ⟨h.1, h.2.2.2⟩

/-- C6: a non-terminal (`assigning`) response schedules exactly one poll
timer, with delay equal to the retry-after hint when present and the fixed
default otherwise, clears the in-flight request, and records the operation
id from the response. -/
theorem poll_assigning_schedules_single_poll (evs : List PollEvent) (oid : Nat)
    (ra : Option Nat)
    (h : (pollRun evs).phase = PollPhase.waitingResponse) :
    (pollStep (pollRun evs)
        (PollEvent.svcResponse RegistrationStatus.assigning oid ra)).phase
      = PollPhase.waitingTimer ∧
    (pollStep (pollRun evs)
        (PollEvent.svcResponse RegistrationStatus.assigning oid ra)).pendingTimers
      = 1 ∧
    (pollStep (pollRun evs)
        (PollEvent.svcResponse RegistrationStatus.assigning oid ra)).nextDelay
      = some (ra.getD defaultPollIntervalSeconds) ∧
    (pollStep (pollRun evs)
        (PollEvent.svcResponse RegistrationStatus.assigning oid ra)).inFlight
      = false ∧
    (pollStep (pollRun evs)
        (PollEvent.svcResponse RegistrationStatus.assigning oid ra)).opId
      = some oid := by
  have h2 := (pollRun_inv evs).2.1
  simp [h] at h2
  refine ⟨?_, ?_, ?_, ?_, ?_⟩ <;> simp [pollStep, h, h2]

theorem poll_assigning_schedules_single_poll_witness :
    (pollStep (pollRun [])
        (PollEvent.svcResponse RegistrationStatus.assigning 4 none)).pendingTimers
      = 1 ∧
    (pollStep (pollRun [])
        (PollEvent.svcResponse RegistrationStatus.assigning 4 none)).nextDelay
      = some defaultPollIntervalSeconds := by
  have h := poll_assigning_schedules_single_poll [] 4 none rfl
  exact ⟨h.2.1, h.2.2.1⟩

/-- C7: in every reachable state of a registration attempt at most one poll
timer is pending, and a pending timer never coexists with an outstanding
network request. -/
theorem poll_single_timer_no_concurrent_request (evs : List PollEvent) :
    (pollRun evs).pendingTimers ≤ 1 ∧
    ((pollRun evs).pendingTimers = 0 ∨ (pollRun evs).inFlight = false) := by
  obtain ⟨h1, h2, h3⟩ := pollRun_inv evs
  constructor
  · rw [h2]; split <;> omega
  · cases hin : (pollRun evs).inFlight with
    | false => exact Or.inr rfl
    | true =>
      left
      rw [h2, h1.mp hin]
      simp

/-- C8: when `getCertificate` fails, `_register` invokes the completion
callback with that error and performs nothing else — in particular neither
`setAuthentication` nor the polling state machine's `register` is ever
called. -/
theorem x509_getcert_failure_isolated (env : X509Env) (e : Nat)
    (h : env.certResult = X509CertResult.certError e) :
    registerTrace env
      = [X509Action.callGetCert,
         X509Action.invokeCallback (CallbackPayload.failure e)] ∧
    (registerTrace env).all
      (fun a => !(isSetAuthAction a || isPollRegisterAction a)) = true := by
  obtain ⟨cr, ro, de⟩ := env
  simp only at h
  subst h
  simp [registerTrace, List.all, isSetAuthAction, isPollRegisterAction]

theorem x509_getcert_failure_isolated_witness :
    registerTrace { certResult := X509CertResult.certError 7,
                    regOutcome :=
                      PollingRegisterOutcome.succeeded { registrationState := 0 },
                    disconnectErr := none }
      = [X509Action.callGetCert,
         X509Action.invokeCallback (CallbackPayload.failure 7)] :=
  (x509_getcert_failure_isolated
    { certResult := X509CertResult.certError 7,
      regOutcome := PollingRegisterOutcome.succeeded { registrationState := 0 },
      disconnectErr := none } 7 rfl).1

/-- C9: calling a delete method with a string id and a falsy second
argument discards the third-argument callback — the DELETE request is still
issued (with no `If-Match` header) but the response is forwarded to no
callback.  The endpoint is quantified, so this covers
`deleteIndividualEnrollment`, `deleteEnrollmentGroup` and
`deleteDeviceRegistrationState` alike. -/
theorem psc_delete_string_falsy_discards_callback (endpoint : DeleteEndpoint)
    (id : String) (second : Option DeleteSecond) (cbId : Nat)
    (hid : id ≠ "")
    (hsec : second = none ∨ second = some (DeleteSecond.etagStr "")) :
    provisioningServiceClientDelete endpoint (DeleteFirst.idStr id) second
        (some (DeleteThird.func cbId))
      = Except.ok { endpoint := endpoint, deleteId := id, ifMatch := none,
                    suppliedCallback := none } ∧
    ∀ apiErr, deleteCallbackInvocations
        { endpoint := endpoint, deleteId := id, ifMatch := none,
          suppliedCallback := none } apiErr = [] := by
  rcases hsec with rfl | rfl <;>
    simp [provisioningServiceClientDelete, hid, deleteCallbackInvocations]

theorem psc_delete_string_falsy_discards_callback_witness :
    provisioningServiceClientDelete DeleteEndpoint.enrollments
        (DeleteFirst.idStr "reg1") none (some (DeleteThird.func 7))
      = Except.ok { endpoint := DeleteEndpoint.enrollments, deleteId := "reg1",
                    ifMatch := none, suppliedCallback := none } :=
  (psc_delete_string_falsy_discards_callback DeleteEndpoint.enrollments "reg1"
    none 7 (by decide) (Or.inl rfl)).1

/-- C10: for `doubleValueCallbackToPromise` without a `userCallback`, an
`Error` first result rejects the promise with that error — the later
`resolve` call cannot change the settled state — and when neither result is
an `Error` the promise resolves with `packResults` of the two results. -/
theorem doubleValueCallbackToPromise_settles (α : Type)
    (packResults : Option JsValue → Option JsValue → α)
    (r1 r2 : Option JsValue) :
    (∀ e, r1 = some (JsValue.errObj e) →
      doubleValueCallbackToPromiseSettled packResults r1 r2
        = some (PromiseSettled.rejectedWith (JsValue.errObj e))) ∧
    (instanceOfError r1 = false → instanceOfError r2 = false →
      doubleValueCallbackToPromiseSettled packResults r1 r2
        = some (PromiseSettled.resolvedWith (packResults r1 r2))) := by
  constructor
  · rintro e rfl
    rcases r2 with _ | v2
    · simp [doubleValueCallbackToPromiseSettled, doubleValueSettleSteps,
            settleFirst, List.foldl]
    · cases v2 <;>
        simp [doubleValueCallbackToPromiseSettled, doubleValueSettleSteps,
              settleFirst, List.foldl]
  · intro h1 h2
    rcases r1 with _ | v1 <;> rcases r2 with _ | v2
    · simp [doubleValueCallbackToPromiseSettled, doubleValueSettleSteps,
            settleFirst, List.foldl]
    · cases v2 <;>
        simp_all [instanceOfError, doubleValueCallbackToPromiseSettled,
                  doubleValueSettleSteps, settleFirst, List.foldl]
    · cases v1 <;>
        simp_all [instanceOfError, doubleValueCallbackToPromiseSettled,
                  doubleValueSettleSteps, settleFirst, List.foldl]
    · cases v1 <;> cases v2 <;>
        simp_all [instanceOfError, doubleValueCallbackToPromiseSettled,
                  doubleValueSettleSteps, settleFirst, List.foldl]

theorem doubleValueCallbackToPromise_settles_witness :
    doubleValueCallbackToPromiseSettled (fun _ _ => (0 : Nat))
        (some (JsValue.errObj 5)) none
      = some (PromiseSettled.rejectedWith (JsValue.errObj 5)) ∧
    doubleValueCallbackToPromiseSettled (fun _ _ => (0 : Nat))
        (some (JsValue.plain 1)) none
      = some (PromiseSettled.resolvedWith 0) := by
  constructor
  · exact (doubleValueCallbackToPromise_settles Nat (fun _ _ => 0)
      (some (JsValue.errObj 5)) none).1 5 rfl
  · exact (doubleValueCallbackToPromise_settles Nat (fun _ _ => 0)
      (some (JsValue.plain 1)) none).2 rfl rfl
